import Mathlib

/-!
Shallow embedding of the Mentorly backend's query-filtering-and-pagination
layer (course and blog listing endpoints), together with the course
update/create write paths, for checking the natural-language specification
against the code.

Sources embedded:
  * `src/controllers/course.controller.ts` — `getCourses`, `listCourses`,
    `updateCourse`, `deleteCourse`;
  * `src/models/course.model.ts` — the pre-save discount hook;
  * the blog query schema (`blogQuerySchema`) and `BlogService.findBlogs`.

JavaScript numeric strings are parsed by explicit models of `parseInt` and
`parseFloat`; a failed parse (JavaScript `NaN`) is `Option.none`.
-/

namespace Mentorly

/-! ## JavaScript primitives -/

/-- Leading-whitespace skip used by `parseInt` / `parseFloat`. -/
def skipWS (l : List Char) : List Char := l.dropWhile (fun c => c.isWhitespace)

/-- Split off the longest prefix of decimal digits. -/
def takeDigits : List Char → List Char × List Char
  | [] => ([], [])
  | c :: cs =>
    if c.isDigit then
      let p := takeDigits cs
      (c :: p.1, p.2)
    else ([], c :: cs)

/-- Value of a digit string. -/
def digitsToNat (l : List Char) : Nat :=
  l.foldl (fun a c => a * 10 + (c.toNat - 48)) 0

/-- Optional sign. -/
def parseSign : List Char → Int × List Char
  | '-' :: r => (-1, r)
  | '+' :: r => (1, r)
  | r => (1, r)

/-- JavaScript `parseInt(s)` (radix 10; the hexadecimal `0x` form is not
modelled — no caller input uses it). `none` is `NaN`. -/
def parseIntJS (s : String) : Option Int :=
  let l := skipWS s.toList
  let p := parseSign l
  let d := takeDigits p.2
  if d.1 = [] then none else some (p.1 * (digitsToNat d.1 : Int))

/-- JavaScript `parseFloat(s)` (decimal digits with an optional fraction;
exponent forms are not modelled — no caller input uses them). `none` is `NaN`. -/
def parseFloatJS (s : String) : Option ℚ :=
  let l := skipWS s.toList
  let p := parseSign l
  let d := takeDigits p.2
  match d.2 with
  | '.' :: r3 =>
    let f := takeDigits r3
    if d.1 = [] ∧ f.1 = [] then none
    else some ((p.1 : ℚ) * ((digitsToNat d.1 : ℚ) + (digitsToNat f.1 : ℚ) / 10 ^ f.1.length))
  | _ => if d.1 = [] then none else some ((p.1 : ℚ) * (digitsToNat d.1 : ℚ))

/-- JavaScript `x || d` on a number `x` that may be `NaN` (`none`): both `NaN`
and `0` are falsy and yield the default. -/
def jsOr (x : Option Int) (d : Int) : Int :=
  match x with
  | none => d
  | some v => if v = 0 then d else v

/-- JavaScript `s || d` on a string: the empty string is falsy. -/
def jsOrStr (x : Option String) (d : String) : String :=
  match x with
  | none => d
  | some s => if s = "" then d else s

/-- JavaScript `Math.max(a, x)` where `x` may be `NaN`: `NaN` propagates. -/
def jsMaxNaN (a : Int) (x : Option Int) : Option Int := x.map (fun v => max a v)

/-- JavaScript `Math.min(x, b)` where `x` may be `NaN`: `NaN` propagates. -/
def jsMinNaN (x : Option Int) (b : Int) : Option Int := x.map (fun v => min v b)

/-- JavaScript `Math.round` on an exact rational: `⌊q + 1/2⌋`. -/
def jsRound (q : ℚ) : ℤ := ⌊q + 1 / 2⌋

/-- JavaScript truthiness of a string value. -/
def strTruthy (x : Option String) : Bool :=
  match x with
  | none => false
  | some s => s ≠ ""

/-! ## Pagination resolution

`listCourses` (course.controller.ts:645–647):
  `pageNum = Math.max(1, parseInt(page) || 1)` with destructuring default
  `page = 1`, and
  `limitNum = Math.max(1, Math.min(100, parseInt(limit) || 12))` with
  destructuring default `limit = 12`. -/

/-- Resolved page number of `listCourses`. An absent `page` takes the
destructuring default `1` (a number, which `parseInt` reads back as `1`). -/
def listPageNum (page : Option String) : Int :=
  max 1 (jsOr (match page with
               | none => parseIntJS "1"
               | some s => parseIntJS s) 1)

/-- Resolved page size of `listCourses`. -/
def listLimitNum (limit : Option String) : Int :=
  max 1 (min 100 (jsOr (match limit with
                        | none => parseIntJS "12"
                        | some s => parseIntJS s) 12))

/-! `blogQuerySchema` (news.validator.ts): the zod transforms
  `page: Math.max(1, parseInt(val || '1'))` and
  `limit: Math.min(Math.max(1, parseInt(val || '10')), 50)`.
A present but non-numeric string makes `parseInt` return `NaN`, which
`Math.max` / `Math.min` propagate. -/

/-- Resolved blog page (`none` is `NaN`). -/
def blogPageResolved (val : Option String) : Option Int :=
  jsMaxNaN 1 (parseIntJS (jsOrStr val "1"))

/-- Resolved blog limit (`none` is `NaN`). -/
def blogLimitResolved (val : Option String) : Option Int :=
  jsMinNaN (jsMaxNaN 1 (parseIntJS (jsOrStr val "10"))) 50

/-- Modelled from the spec: the claimed resolution formula
`pageSize = max(1, min(100, parseIntOr(raw.limit, defaultLimit)))`, where
`parseIntOr` falls back to the default exactly on parsing failure. Stated
for comparison with the code's `listLimitNum` / `blogLimitResolved`. -/
def specPageSize (raw : Option String) (defaultLimit : Int) : Int :=
  max 1 (min 100 (match raw with
                  | none => defaultLimit
                  | some s => (parseIntJS s).getD defaultLimit))

/-! ## Pagination metadata

`listCourses` (course.controller.ts:891–908) and `BlogService.findBlogs`
(blogs service, lines 74–90) compute, from the total count, the resolved
limit and the resolved page:
  `totalPages = Math.ceil(total / limit)`, `hasNext = page < totalPages`,
  `hasPrev = page > 1`, `nextPage = hasNext ? page + 1 : null`,
  `prevPage = hasPrev ? page - 1 : null`. -/

structure Pagination where
  currentPage : Nat
  totalPages : Nat
  totalItems : Nat
  itemsPerPage : Nat
  hasNext : Bool
  hasPrev : Bool
  nextPage : Option Nat
  prevPage : Option Nat
  deriving Repr, DecidableEq

/-- `Math.ceil(total / limit)` on non-negative integers. -/
def mathCeilDiv (total limit : Nat) : Nat :=
  (Int.ceil ((total : ℚ) / (limit : ℚ))).toNat

/-- Pagination metadata of `listCourses` (course.controller.ts:891–908). -/
def coursePagination (total limit page : Nat) : Pagination :=
  let totalPages := mathCeilDiv total limit
  let hasNext := decide (page < totalPages)
  let hasPrev := decide (page > 1)
  { currentPage := page
    totalPages := totalPages
    totalItems := total
    itemsPerPage := limit
    hasNext := hasNext
    hasPrev := hasPrev
    nextPage := if hasNext then some (page + 1) else none
    prevPage := if hasPrev then some (page - 1) else none }

/-- Pagination metadata of `BlogService.findBlogs` (same computation,
embedded from its own source lines). -/
def blogPagination (total limit page : Nat) : Pagination :=
  let totalPages := mathCeilDiv total limit
  let hasNext := decide (page < totalPages)
  let hasPrev := decide (page > 1)
  { currentPage := page
    totalPages := totalPages
    totalItems := total
    itemsPerPage := limit
    hasNext := hasNext
    hasPrev := hasPrev
    nextPage := if hasNext then some (page + 1) else none
    prevPage := if hasPrev then some (page - 1) else none }

/-! ## Filter model for the course endpoints

A query-string value for a multi-select key is either a single string or an
array of strings (Express parses repeated keys into arrays). -/

inductive StrOrList where
  | one (s : String)
  | many (l : List String)
  deriving Repr, DecidableEq

/-- A clause of a top-level `$or` array. The search branch builds
case-insensitive regex clauses on text fields plus a `tags: {$in: [regex]}`
clause; the discount-absence branch builds the three `discountedPrice`
clauses. -/
inductive OrClause where
  /-- `{ field: { $regex: pattern, $options: 'i' } }` -/
  | regexCI (field : String) (pattern : String)
  /-- `{ tags: { $in: [new RegExp(pattern, 'i')] } }` -/
  | tagsRegexCI (pattern : String)
  /-- `{ discountedPrice: { $exists: false } }` -/
  | dpExistsFalse
  /-- `{ discountedPrice: null }` -/
  | dpEqNull
  /-- `{ discountedPrice: 0 }` -/
  | dpEqZero
  deriving Repr, DecidableEq

/-- A numeric range constraint `{ $gte?, $lte? }`; each bound, when present,
is a parsed float that may be `NaN` (inner `none`). -/
structure NumRange where
  gte : Option (Option ℚ) := none
  lte : Option (Option ℚ) := none
  deriving Repr, DecidableEq

/-- The constraint `{ $exists: _, $ne: null, $gt: _ }` placed on
`discountedPrice` when `hasDiscount === 'true'`. -/
structure ExistsNeGt where
  existsFlag : Bool
  neNull : Bool
  gt : ℚ
  deriving Repr, DecidableEq

/-- Constraint placed on `discountPercentage`: `{ $gt: 0 }` from the
discount branch, or a `{ $gte?, $lte? }` range from the percentage bounds
(the later block overwrites the former). -/
inductive PctConstraint where
  | gtZero
  | range (r : NumRange)
  deriving Repr, DecidableEq

/-- Equality / set-membership constraint on an enumerated field. -/
inductive FieldC where
  | eqv (s : String)
  | inList (l : List String)
  deriving Repr, DecidableEq

/-- Date range on `createdAt` / `updatedAt`; the raw strings are kept (the
`new Date` decoding is irrelevant to the claims). -/
structure DateRange where
  gte : Option String := none
  lte : Option String := none
  deriving Repr, DecidableEq

/-- Raw query of `listCourses` (destructured keys; `none` = absent). -/
structure ListQuery where
  search : Option String := none
  category : Option StrOrList := none
  level : Option StrOrList := none
  instructor : Option String := none
  minPrice : Option String := none
  maxPrice : Option String := none
  priceRange : Option String := none
  hasDiscount : Option String := none
  minDiscountPercentage : Option String := none
  maxDiscountPercentage : Option String := none
  minRating : Option String := none
  maxRating : Option String := none
  minDuration : Option String := none
  maxDuration : Option String := none
  durationRange : Option String := none
  minStudents : Option String := none
  maxStudents : Option String := none
  isFeatured : Option String := none
  isActive : Option String := none
  badge : Option StrOrList := none
  tags : Option StrOrList := none
  createdAfter : Option String := none
  createdBefore : Option String := none
  updatedAfter : Option String := none
  updatedBefore : Option String := none
  deriving Repr, DecidableEq

/-- The filter object built by `listCourses` (course.controller.ts:650–798).
Each field is one dynamic key of the JavaScript filter object. -/
structure ListFilter where
  isActive : Bool
  orClauses : Option (List OrClause) := none
  category : Option FieldC := none
  level : Option FieldC := none
  instructor : Option String := none
  originalPrice : Option NumRange := none
  discountedPrice : Option ExistsNeGt := none
  discountPercentage : Option PctConstraint := none
  rating : Option NumRange := none
  totalHours : Option NumRange := none
  students : Option NumRange := none
  isFeatured : Option Bool := none
  badge : Option FieldC := none
  tags : Option (List String) := none
  createdAt : Option DateRange := none
  updatedAt : Option DateRange := none
  deriving Repr, DecidableEq

/-- The five search clauses of `listCourses` (lines 657–663). -/
def listSearchClauses (s : String) : List OrClause :=
  [ .regexCI "title" s, .regexCI "description" s, .regexCI "instructor" s,
    .regexCI "category" s, .tagsRegexCI s ]

/-- The discount-absence disjunction (lines 717–721). -/
def dpAbsenceClauses : List OrClause :=
  [ .dpExistsFalse, .dpEqNull, .dpEqZero ]

/-- `$or` key: assigned by the search block first, then overwritten by the
`hasDiscount === 'false'` branch (a plain property assignment, lines
656–664 and 716–722). -/
def listOrField (search hasDiscount : Option String) : Option (List OrClause) :=
  let afterSearch : Option (List OrClause) :=
    match search with
    | some s => if s ≠ "" then some (listSearchClauses s) else none
    | none => none
  if hasDiscount = some "false" then some dpAbsenceClauses else afterSearch

/-- Category key (lines 667–673): skipped when absent, falsy, or the
sentinel `'All Courses'`; an array becomes `$in`, a scalar an equality. -/
def listCategoryField (category : Option StrOrList) : Option FieldC :=
  match category with
  | none => none
  | some (.one s) => if s ≠ "" ∧ s ≠ "All Courses" then some (.eqv s) else none
  | some (.many l) => some (.inList l)

/-- Level key (lines 676–682). -/
def listLevelField (level : Option StrOrList) : Option FieldC :=
  match level with
  | none => none
  | some (.one s) => if s ≠ "" then some (.eqv s) else none
  | some (.many l) => some (.inList l)

/-- Badge key (lines 772–778), same shape as level. -/
def listBadgeField (badge : Option StrOrList) : Option FieldC :=
  match badge with
  | none => none
  | some (.one s) => if s ≠ "" then some (.eqv s) else none
  | some (.many l) => some (.inList l)

/-- A two-sided bound block: `if (min !== undefined || max !== undefined)`
sets `{ $gte: parseFloat(min)?, $lte: parseFloat(max)? }` (lines 690–694,
731–735, 738–742). -/
def boundRange (mins maxs : Option String) : Option NumRange :=
  match mins, maxs with
  | none, none => none
  | _, _ => some { gte := mins.map parseFloatJS, lte := maxs.map parseFloatJS }

/-- The `priceRange` preset lookup table (lines 698–704). -/
def priceRangeTable (tok : String) : Option (ℚ × ℚ) :=
  if tok = "free" then some (0, 0)
  else if tok = "under-1000" then some (0, 1000)
  else if tok = "1000-5000" then some (1000, 5000)
  else if tok = "5000-10000" then some (5000, 10000)
  else if tok = "above-10000" then some (10000, 9007199254740991)
  else none

/-- The `durationRange` preset lookup table (lines 746–751). -/
def durationRangeTable (tok : String) : Option (ℚ × ℚ) :=
  if tok = "short" then some (0, 10)
  else if tok = "medium" then some (10, 30)
  else if tok = "long" then some (30, 100)
  else if tok = "extended" then some (100, 9007199254740991)
  else none

/-- `originalPrice` key: the bound block first, then the preset block
overwrites it when the token is recognized (lines 690–710). -/
def listOriginalPriceField (minPrice maxPrice priceRange : Option String) :
    Option NumRange :=
  let base := boundRange minPrice maxPrice
  match priceRange with
  | some tok =>
    if tok ≠ "" then
      match priceRangeTable tok with
      | some r => some { gte := some (some r.1), lte := some (some r.2) }
      | none => base
    else base
  | none => base

/-- `totalHours` key: bounds then preset (lines 738–757). -/
def listTotalHoursField (minDuration maxDuration durationRange : Option String) :
    Option NumRange :=
  let base := boundRange minDuration maxDuration
  match durationRange with
  | some tok =>
    if tok ≠ "" then
      match durationRangeTable tok with
      | some r => some { gte := some (some r.1), lte := some (some r.2) }
      | none => base
    else base
  | none => base

/-- `discountedPrice` key: only the `hasDiscount === 'true'` branch writes
it (line 714). -/
def listDiscountedPriceField (hasDiscount : Option String) : Option ExistsNeGt :=
  if hasDiscount = some "true" then some ⟨true, true, 0⟩ else none

/-- `discountPercentage` key: `{ $gt: 0 }` from the discount branch (line
715), overwritten by the percentage-bounds block when either bound is
present (lines 724–728). -/
def listPctField (hasDiscount minPct maxPct : Option String) : Option PctConstraint :=
  let base : Option PctConstraint :=
    if hasDiscount = some "true" then some .gtZero else none
  match minPct, maxPct with
  | none, none => base
  | _, _ => some (.range { gte := minPct.map parseFloatJS, lte := maxPct.map parseFloatJS })

/-- `students` key: `$gte: parseInt(min)?, $lte: parseInt(max)?` (lines
760–764); parsed with `parseInt` in the source, embedded into ℚ. -/
def listStudentsField (minStudents maxStudents : Option String) : Option NumRange :=
  match minStudents, maxStudents with
  | none, none => none
  | _, _ => some { gte := minStudents.map (fun s => (parseIntJS s).map (fun n => (n : ℚ)))
                 , lte := maxStudents.map (fun s => (parseIntJS s).map (fun n => (n : ℚ))) }

/-- Tags key (lines 781–784): each supplied tag becomes a case-insensitive
regex in a `$in` list. -/
def listTagsField (tags : Option StrOrList) : Option (List String) :=
  match tags with
  | none => none
  | some (.one s) => if s ≠ "" then some [s] else none
  | some (.many l) => some l

/-- Date keys (lines 787–798): spread-merge of `$gte` / `$lte`. -/
def dateRangeField (after before : Option String) : Option DateRange :=
  match after, before with
  | none, none => none
  | _, _ => some { gte := after, lte := before }

/-- The full filter of `listCourses` (course.controller.ts:650–798).
`isActive` has destructuring default `'true'` and the filter key is
`isActive === 'true'` (lines 625 and 653). -/
def buildListFilter (q : ListQuery) : ListFilter :=
  { isActive := (match q.isActive with | none => "true" | some s => s) = "true"
    orClauses := listOrField q.search q.hasDiscount
    category := listCategoryField q.category
    level := listLevelField q.level
    instructor := (match q.instructor with
                   | some s => if s ≠ "" then some s else none
                   | none => none)
    originalPrice := listOriginalPriceField q.minPrice q.maxPrice q.priceRange
    discountedPrice := listDiscountedPriceField q.hasDiscount
    discountPercentage := listPctField q.hasDiscount q.minDiscountPercentage q.maxDiscountPercentage
    rating := boundRange q.minRating q.maxRating
    totalHours := listTotalHoursField q.minDuration q.maxDuration q.durationRange
    students := listStudentsField q.minStudents q.maxStudents
    isFeatured := q.isFeatured.map (fun s => s = "true")
    badge := listBadgeField q.badge
    tags := listTagsField q.tags
    createdAt := dateRangeField q.createdAfter q.createdBefore
    updatedAt := dateRangeField q.updatedAfter q.updatedBefore }

/-! ## Filter model for `getCourses` (course.controller.ts:11–165) -/

/-- Raw query of `getCourses` (scalar keys suffice for the claims; the code
assigns `category` / `level` directly without array handling). -/
structure GetQuery where
  search : Option String := none
  category : Option String := none
  minPrice : Option String := none
  maxPrice : Option String := none
  hasDiscount : Option String := none
  minDiscount : Option String := none
  minRating : Option String := none
  maxRating : Option String := none
  level : Option String := none
  isFeatured : Option String := none
  isActive : Option String := none
  minDuration : Option String := none
  maxDuration : Option String := none
  minStudents : Option String := none
  deriving Repr, DecidableEq

/-- The filter object built by `getCourses` (lines 39–101). -/
structure GetFilter where
  isActive : Bool
  orClauses : Option (List OrClause) := none
  category : Option String := none
  originalPrice : Option NumRange := none
  discountedPrice : Option ExistsNeGt := none
  discountPercentage : Option NumRange := none
  rating : Option NumRange := none
  level : Option String := none
  isFeatured : Option Bool := none
  totalHours : Option NumRange := none
  students : Option NumRange := none
  deriving Repr, DecidableEq

/-- The four search clauses of `getCourses` (lines 45–50, no tags clause). -/
def getSearchClauses (s : String) : List OrClause :=
  [ .regexCI "title" s, .regexCI "description" s, .regexCI "instructor" s,
    .regexCI "category" s ]

/-- `$or` key of `getCourses`: the search block (lines 44–51), then the
`hasDiscount` else-branch overwrites it for ANY supplied value other than
`'true'` (lines 63–73). -/
def getOrField (search hasDiscount : Option String) : Option (List OrClause) :=
  let afterSearch : Option (List OrClause) :=
    match search with
    | some s => if s ≠ "" then some (getSearchClauses s) else none
    | none => none
  match hasDiscount with
  | none => afterSearch
  | some v => if v = "true" then afterSearch else some dpAbsenceClauses

/-- `discountedPrice` key of `getCourses` (line 65). -/
def getDiscountedPriceField (hasDiscount : Option String) : Option ExistsNeGt :=
  if hasDiscount = some "true" then some ⟨true, true, 0⟩ else none

/-- The full filter of `getCourses` (lines 39–101). `isActive` uses the
ternary `isActive !== undefined ? (isActive === 'true') : true` (line 42). -/
def buildGetFilter (q : GetQuery) : GetFilter :=
  { isActive := (match q.isActive with | none => true | some s => s = "true")
    orClauses := getOrField q.search q.hasDiscount
    category := (match q.category with
                 | some s => if s ≠ "" ∧ s ≠ "All Courses" then some s else none
                 | none => none)
    originalPrice := boundRange q.minPrice q.maxPrice
    discountedPrice := getDiscountedPriceField q.hasDiscount
    discountPercentage := (match q.minDiscount with
                           | some s => some { gte := some (parseFloatJS s), lte := none }
                           | none => none)
    rating := boundRange q.minRating q.maxRating
    level := (match q.level with
              | some s => if s ≠ "" then some s else none
              | none => none)
    isFeatured := q.isFeatured.map (fun s => s = "true")
    totalHours := boundRange q.minDuration q.maxDuration
    students := (match q.minStudents with
                 | some s => some { gte := some ((parseIntJS s).map (fun n => (n : ℚ)))
                                  , lte := none }
                 | none => none) }

/-! ## Blog filter (`BlogService.findBlogs`, service lines 26–40) -/

/-- Validated blog listing query (post-zod; pagination handled above). -/
structure BlogQuery where
  category : Option String := none
  search : Option String := none
  deriving Repr, DecidableEq

/-- Blog filter object: built starting from `{ isPublished: true }` — the
published restriction is unconditional, the service exposes no override. -/
structure BlogFilter where
  isPublished : Bool
  category : Option String := none
  orClauses : Option (List OrClause) := none
  deriving Repr, DecidableEq

/-- The four search clauses of `findBlogs` (service lines 34–39). -/
def blogSearchClauses (s : String) : List OrClause :=
  [ .regexCI "title" s, .regexCI "description" s, .regexCI "author" s,
    .tagsRegexCI s ]

/-- The filter of `findBlogs`: `{ isPublished: true }` plus category and
search (service lines 27–40). `category` and `search` are zod-validated
(category an enum member, search non-empty), so plain presence checks. -/
def buildBlogFilter (q : BlogQuery) : BlogFilter :=
  { isPublished := true
    category := q.category
    orClauses := q.search.map blogSearchClauses }

/-! ## Document matching semantics (MongoDB, restricted to the constraint
shapes the builders emit) -/

/-- A stored course document, restricted to the fields the discount and
price constraints read. `discountedPrice`: outer `none` = field absent,
`some none` = null, `some (some v)` = numeric value. -/
structure CourseDoc where
  title : String := ""
  description : String := ""
  instructor : String := ""
  category : String := ""
  tags : List String := []
  originalPrice : ℚ := 0
  discountedPrice : Option (Option ℚ) := none
  discountPercentage : ℚ := 0
  deriving Repr, DecidableEq

/-- Case-insensitive substring containment (the regex patterns the builders
emit are plain text, so `$regex` with `$options: 'i'` is substring match). -/
def strContainsCI (hay pat : String) : Bool :=
  (hay.toLower.toList.tails).any (fun t => pat.toLower.toList.isPrefixOf t)

/-- Whether a document matches one `$or` clause. The `{discountedPrice:
null}` equality clause follows MongoDB null semantics: it matches documents
whose field is null OR absent. -/
def matchesOrClause (d : CourseDoc) : OrClause → Bool
  | .regexCI f pat =>
    if f = "title" then strContainsCI d.title pat
    else if f = "description" then strContainsCI d.description pat
    else if f = "instructor" then strContainsCI d.instructor pat
    else if f = "category" then strContainsCI d.category pat
    else false
  | .tagsRegexCI pat => d.tags.any (fun t => strContainsCI t pat)
  | .dpExistsFalse => d.discountedPrice = none
  | .dpEqNull => d.discountedPrice = none ∨ d.discountedPrice = some none
  | .dpEqZero => d.discountedPrice = some (some 0)

/-- `$or` list: any clause matches. -/
def matchesOrList (d : CourseDoc) (l : List OrClause) : Bool :=
  l.any (matchesOrClause d)

/-- Whether the `discountedPrice` value satisfies `{ $exists: e, $ne: null,
$gt: g }`. MongoDB: `$exists: true` needs the field present; `$ne: null`
excludes null (and, for null-equality semantics, absent); `$gt` on a
missing or null field is false. -/
def matchesExistsNeGt (dp : Option (Option ℚ)) (c : ExistsNeGt) : Bool :=
  (if c.existsFlag then dp ≠ none else dp = none) &&
  (if c.neNull then ¬ (dp = none ∨ dp = some none) else true) &&
  (match dp with
   | some (some v) => decide (v > c.gt)
   | _ => false)

/-- Whether a numeric value satisfies `{ $gte?, $lte? }`; a `NaN` bound
(inner `none`) compares false in MongoDB. -/
def matchesNumRange (v : ℚ) (r : NumRange) : Bool :=
  (match r.gte with
   | none => true
   | some (some b) => decide (b ≤ v)
   | some none => false) &&
  (match r.lte with
   | none => true
   | some (some b) => decide (v ≤ b)
   | some none => false)

/-! ## Sort resolution -/

/-- JavaScript property assignment on an insertion-ordered object, modelled
as an association list: update in place if the key exists, else append. -/
def jsAssign (l : List (String × Int)) (k : String) (v : Int) : List (String × Int) :=
  if l.any (fun p => p.1 = k) then
    l.map (fun p => if p.1 = k then (k, v) else p)
  else l ++ [(k, v)]

/-- Property lookup. -/
def jsLookup (l : List (String × Int)) (k : String) : Option Int :=
  (l.find? (fun p => p.1 = k)).map (fun p => p.2)

/-- `sortOrder === 'desc' ? -1 : 1`. -/
def sortDir (ord : String) : Int := if ord = "desc" then -1 else 1

/-- The sort object of `listCourses` (lines 801–838): switch on the logical
key, then `if (!sort.createdAt) sort.createdAt = -1` (a falsy check — an
already-set ±1 direction is truthy and preserved). -/
def buildListSort (sortBy sortOrder : String) : List (String × Int) :=
  let d := sortDir sortOrder
  let s : List (String × Int) :=
    if sortBy = "price" then jsAssign [] "originalPrice" d
    else if sortBy = "discountedPrice" then jsAssign [] "discountedPrice" d
    else if sortBy = "rating" then jsAssign [] "rating" d
    else if sortBy = "students" then jsAssign [] "students" d
    else if sortBy = "duration" then jsAssign [] "totalHours" d
    else if sortBy = "discount" then jsAssign [] "discountPercentage" d
    else if sortBy = "popularity" then jsAssign (jsAssign [] "students" (-1)) "rating" (-1)
    else if sortBy = "trending" then jsAssign (jsAssign [] "createdAt" (-1)) "students" (-1)
    else jsAssign [] sortBy d
  match jsLookup s "createdAt" with
  | none => jsAssign s "createdAt" (-1)
  | some v => if v = 0 then jsAssign s "createdAt" (-1) else s

/-- The sort object of `getCourses` (lines 104–118): switch, then the
UNCONDITIONAL `sort.createdAt = -1` of line 118. -/
def buildGetSort (sortBy sortOrder : String) : List (String × Int) :=
  let d := sortDir sortOrder
  let s : List (String × Int) :=
    if sortBy = "discountedPrice" then jsAssign (jsAssign [] "discountedPrice" d) "originalPrice" d
    else if sortBy = "duration" then jsAssign [] "totalHours" d
    else jsAssign [] sortBy d
  jsAssign s "createdAt" (-1)

/-! ## Course write paths

`updateCourse` (course.controller.ts:293–376) builds an `updateData` object
and applies it with `findByIdAndUpdate`; `courseSchema.pre('save')`
(course.model.ts:200–207) recomputes `discountPercentage` on `save()`.
Request bodies arrive as multipart form-data, so field values are strings
(`none` = absent). -/

structure UpdateBody where
  title : Option String := none
  description : Option String := none
  category : Option String := none
  instructor : Option String := none
  originalPrice : Option String := none
  duration : Option String := none
  level : Option String := none
  tags : Option String := none
  isFeatured : Option String := none
  isActive : Option String := none
  discountedPrice : Option String := none
  rating : Option String := none
  reviewCount : Option String := none
  students : Option String := none
  badge : Option String := none
  icon : Option String := none
  iconType : Option String := none
  discountPercentage : Option String := none
  totalHours : Option String := none
  lectures : Option String := none
  deriving Repr, DecidableEq

/-- A conditionally-written numeric update value: `undef` is JavaScript
`undefined` (the ternary's else), `num none` is `NaN`. -/
inductive UpdVal where
  | undef
  | num (v : Option ℚ)
  deriving Repr, DecidableEq

/-- `tags.split(',').map(t => t.trim()).filter(Boolean)` (line 310). -/
def splitTags (s : String) : List String :=
  ((s.splitOn ",").map (fun t => t.trim)).filter (fun t => t ≠ "")

/-- The `updateData` object of `updateCourse` (lines 302–328). Fields of
the first block are always assigned (value possibly `undefined`, modelled
as the body's `Option`); the later fields are assigned only when the body
key is present. -/
structure CourseUpdateData where
  title : Option String
  description : Option String
  category : Option String
  instructor : Option String
  /-- `parseFloat(req.body.originalPrice)`: `NaN` (`none`) when the body
  omits the field. -/
  originalPrice : Option ℚ
  duration : Option String
  level : Option String
  tags : List String
  isFeatured : Bool
  isActive : Bool
  discountedPrice : Option UpdVal := none
  rating : Option (Option ℚ) := none
  reviewCount : Option (Option Int) := none
  students : Option (Option Int) := none
  badge : Option String := none
  icon : Option String := none
  iconType : Option String := none
  discountPercentage : Option (Option ℚ) := none
  totalHours : Option (Option ℚ) := none
  lectures : Option (Option Int) := none
  deriving Repr, DecidableEq

/-- Build `updateData` from the request body and the existing course's tags
(course.controller.ts:302–328). -/
def buildCourseUpdateData (b : UpdateBody) (existingTags : List String) :
    CourseUpdateData :=
  { title := b.title
    description := b.description
    category := b.category
    instructor := b.instructor
    originalPrice := (match b.originalPrice with
                      | some s => parseFloatJS s
                      | none => none)
    duration := b.duration
    level := b.level
    tags := (match b.tags with
             | some s => if s ≠ "" then splitTags s else existingTags
             | none => existingTags)
    isFeatured := b.isFeatured = some "true"
    isActive := b.isActive ≠ some "false"
    discountedPrice := b.discountedPrice.map (fun s =>
      if s ≠ "" then UpdVal.num (parseFloatJS s) else UpdVal.undef)
    rating := b.rating.map parseFloatJS
    reviewCount := b.reviewCount.map parseIntJS
    students := b.students.map parseIntJS
    badge := b.badge
    icon := b.icon
    iconType := b.iconType
    discountPercentage := b.discountPercentage.map parseFloatJS
    totalHours := b.totalHours.map parseFloatJS
    lectures := b.lectures.map parseIntJS }

/-- A stored course record, restricted to the fields the write-path claims
read. `discountedPrice`: outer `none` = absent, `some none` = null,
`some (some none)` = `NaN`, `some (some (some v))` = value. Numeric fields
are `Option ℚ` with `none` = `NaN`. -/
structure CourseRecord where
  originalPrice : Option ℚ := some 0
  discountedPrice : Option (Option (Option ℚ)) := none
  discountPercentage : Option ℚ := some 0
  isActive : Bool := true
  isFeatured : Bool := false
  tags : List String := []
  deriving Repr, DecidableEq

/-- The recomputation formula of the pre-save hook:
`Math.round(((originalPrice - discountedPrice) / originalPrice) * 100)`. -/
def recomputePct (op dp : ℚ) : ℤ := jsRound (((op - dp) / op) * 100)

/-- `courseSchema.pre('save')` (course.model.ts:200–207): when
`discountedPrice`, `originalPrice` are truthy and `originalPrice > 0`,
overwrite `discountPercentage` with the recomputed value. Truthiness:
absent, null, `NaN` and `0` are all falsy. -/
def preSaveHook (r : CourseRecord) : CourseRecord :=
  match r.discountedPrice, r.originalPrice with
  | some (some (some dp)), some op =>
    if dp ≠ 0 ∧ op ≠ 0 ∧ op > 0 then
      { r with discountPercentage := some ((recomputePct op dp : ℤ) : ℚ) }
    else r
  | _, _ => r

/-- Closed `enum` value set of `category` (course.model.ts:50–59). -/
def categoryEnumVals : List String :=
  ["frontend", "backend", "fullstack", "webdesign", "mobile", "devops",
   "cybersecurity", "testing"]

/-- Closed `enum` value set of `level` (course.model.ts:122). -/
def levelEnumVals : List String := ["beginner", "intermediate", "advanced"]

/-- Closed `enum` value set of `badge` (course.model.ts:111). -/
def badgeEnumVals : List String :=
  ["new", "trending", "popular", "featured", "recommended"]

/-- Mongoose number cast of a conditionally-present float update value: an
absent key casts nothing, a present `NaN` throws a `CastError`
(`castNumber` asserts `!isNaN`). -/
def castOkQ : Option (Option ℚ) → Bool
  | none => true
  | some none => false
  | some (some _) => true

/-- Number cast of a conditionally-present `parseInt` update value. -/
def castOkI : Option (Option Int) → Bool
  | none => true
  | some none => false
  | some (some _) => true

/-- Cast of the `discountedPrice` update value: an `undefined` value is
stripped from the update, a `NaN` throws a `CastError`. -/
def castOkDP : Option UpdVal → Bool
  | none => true
  | some .undef => true
  | some (.num none) => false
  | some (.num (some _)) => true

/-- Whether every number in the update document casts. `originalPrice` is
an always-present key of `updateData`, so an unparseable or omitted body
`originalPrice` (`NaN`) makes the whole update throw a `CastError`. -/
def castOk (u : CourseUpdateData) : Bool :=
  u.originalPrice.isSome && castOkDP u.discountedPrice && castOkQ u.rating &&
  castOkI u.reviewCount && castOkI u.students && castOkQ u.discountPercentage &&
  castOkQ u.totalHours && castOkI u.lectures

/-- The schema validators, run as UPDATE validators (`runValidators: true`)
on the paths present in the update. The `discountedPrice` custom validator
`!value || value <= this.originalPrice` runs with `this` NOT bound to the
document (Mongoose update validators), so any truthy (non-zero) value
fails it; only a zero value passes (which also satisfies `min: 0`). The
other validators are the schema's `min`/`max`/`maxlength`/`enum` bounds. -/
def updateValidatorsOk (u : CourseUpdateData) : Bool :=
  (match u.originalPrice with
   | some v => decide (0 ≤ v)
   | none => true) &&
  (match u.discountedPrice with
   | some (.num (some v)) => decide (v = 0)
   | _ => true) &&
  (match u.rating with
   | some (some v) => decide (0 ≤ v ∧ v ≤ 5)
   | _ => true) &&
  (match u.reviewCount with
   | some (some n) => decide (0 ≤ n)
   | _ => true) &&
  (match u.students with
   | some (some n) => decide (0 ≤ n)
   | _ => true) &&
  (match u.discountPercentage with
   | some (some v) => decide (0 ≤ v ∧ v ≤ 100)
   | _ => true) &&
  (match u.totalHours with
   | some (some v) => decide (0 ≤ v)
   | _ => true) &&
  (match u.lectures with
   | some (some n) => decide (0 ≤ n)
   | _ => true) &&
  (match u.title with
   | some s => decide (s.trim.length ≤ 200)
   | none => true) &&
  (match u.category with
   | some s => categoryEnumVals.contains s
   | none => true) &&
  (match u.level with
   | some s => levelEnumVals.contains s
   | none => true) &&
  (match u.badge with
   | some s => badgeEnumVals.contains s
   | none => true)

/-- The raw `$set` of the update document onto the modelled fields (present
keys verbatim, `undefined` values dropped, absent keys untouched). -/
def applySet (r : CourseRecord) (u : CourseUpdateData) : CourseRecord :=
  { r with
    originalPrice := u.originalPrice
    discountedPrice := (match u.discountedPrice with
                        | none => r.discountedPrice
                        | some .undef => r.discountedPrice
                        | some (.num v) => some (some v))
    discountPercentage := (match u.discountPercentage with
                           | none => r.discountPercentage
                           | some v => v)
    isActive := u.isActive
    isFeatured := u.isFeatured
    tags := u.tags }

/-- Effect of `findByIdAndUpdate(id, updateData, {new: true, runValidators:
true})`: the update is applied only if every present number casts (a `NaN`
throws a `CastError`) and the update validators pass; otherwise the call
throws and NOTHING is stored (`none`). Mongoose update queries do not run
`pre('save')` middleware, so no recomputation happens on this path. -/
def applyCourseUpdate (r : CourseRecord) (u : CourseUpdateData) : Option CourseRecord :=
  if castOk u && updateValidatorsOk u then some (applySet r u) else none

/-- The controller's own guard before the update (course.controller.ts:344):
`if (updateData.discountedPrice && updateData.discountedPrice >
updateData.originalPrice) throw 400`. `NaN` and `0` are falsy, and a
comparison against a `NaN` `originalPrice` is false. -/
def updateGuardThrows (u : CourseUpdateData) : Bool :=
  match u.discountedPrice with
  | some (.num (some dp)) =>
    if dp = 0 then false
    else match u.originalPrice with
         | some op => decide (op < dp)
         | none => false
  | _ => false

/-- End-to-end effect of `updateCourse` on a stored record: build
`updateData` from the body and the existing course's tags, run the
controller's price guard, then `findByIdAndUpdate`; `none` means the
request fails with an error response and nothing is stored. -/
def updateCourseStore (r : CourseRecord) (b : UpdateBody) : Option CourseRecord :=
  if updateGuardThrows (buildCourseUpdateData b r.tags) then none
  else applyCourseUpdate r (buildCourseUpdateData b r.tags)

/-- `deleteCourse` (course.controller.ts:384–388): a soft delete via
`findByIdAndUpdate(id, { isActive: false, updatedAt: now })`. -/
def applySoftDelete (r : CourseRecord) : CourseRecord :=
  { r with isActive := false }

/-! ## Helper lemmas -/

/-- `Math.ceil(total / limit)` is the least `n` with `total ≤ n * limit`. -/
theorem mathCeilDiv_isLeast (total limit : Nat) (h : 0 < limit) :
    total ≤ mathCeilDiv total limit * limit ∧
    ∀ m : Nat, total ≤ m * limit → mathCeilDiv total limit ≤ m := by
  have hl : (0 : ℚ) < (limit : ℚ) := by exact_mod_cast h
  have hc : (0 : ℤ) ≤ ⌈(total : ℚ) / (limit : ℚ)⌉ := Int.ceil_nonneg (by positivity)
  constructor
  · have h1 : (total : ℚ) / (limit : ℚ) ≤ (⌈(total : ℚ) / (limit : ℚ)⌉ : ℚ) :=
      Int.le_ceil _
    rw [div_le_iff₀ hl] at h1
    have h3 : (total : ℤ) ≤ ⌈(total : ℚ) / (limit : ℚ)⌉ * (limit : ℤ) := by
      exact_mod_cast h1
    have h4 : (total : ℤ) ≤ ((⌈(total : ℚ) / (limit : ℚ)⌉).toNat : ℤ) * (limit : ℤ) := by
      rw [Int.toNat_of_nonneg hc]; exact h3
    unfold mathCeilDiv
    exact_mod_cast h4
  · intro m hm
    have h1 : (total : ℚ) / (limit : ℚ) ≤ (m : ℚ) := by
      rw [div_le_iff₀ hl]; exact_mod_cast hm
    have h3 : ⌈(total : ℚ) / (limit : ℚ)⌉ ≤ (m : ℤ) := Int.ceil_le.mpr (by exact_mod_cast h1)
    unfold mathCeilDiv
    exact Int.toNat_le.mpr h3

/-! ## Claims -/

/-- C2: for every listing response — `total` records matching the filter,
resolved page size `limit` (positive) and resolved page `page` — the
pagination metadata satisfies: `totalPages` is the ceiling of
`totalItems / itemsPerPage` (characterized as the least `n` with
`total ≤ n * limit`), `hasNext ⇔ currentPage < totalPages`,
`hasPrev ⇔ currentPage > 1`, `nextPage = currentPage + 1` exactly when
`hasNext` (else null), `prevPage = currentPage - 1` exactly when `hasPrev`
(else null); and the blog service's pagination computes the identical
metadata. -/
theorem claimC2 (total limit page : Nat) (h : 0 < limit) :
    (total ≤ (coursePagination total limit page).totalPages * limit ∧
      ∀ m : Nat, total ≤ m * limit → (coursePagination total limit page).totalPages ≤ m) ∧
    ((coursePagination total limit page).hasNext = true ↔
      (coursePagination total limit page).currentPage < (coursePagination total limit page).totalPages) ∧
    ((coursePagination total limit page).hasPrev = true ↔
      1 < (coursePagination total limit page).currentPage) ∧
    ((coursePagination total limit page).hasNext = true →
      (coursePagination total limit page).nextPage = some (page + 1)) ∧
    ((coursePagination total limit page).hasNext = false →
      (coursePagination total limit page).nextPage = none) ∧
    ((coursePagination total limit page).hasPrev = true →
      (coursePagination total limit page).prevPage = some (page - 1)) ∧
    ((coursePagination total limit page).hasPrev = false →
      (coursePagination total limit page).prevPage = none) ∧
    blogPagination total limit page = coursePagination total limit page := by
  refine ⟨mathCeilDiv_isLeast total limit h, ?_, ?_, ?_, ?_, ?_, ?_, rfl⟩ <;>
    simp [coursePagination]

/-- C2 witness at `total = 25`, `limit = 10`, `page = 2`. -/
theorem claimC2_witness :
    0 < 10 ∧
    ((25 ≤ (coursePagination 25 10 2).totalPages * 10 ∧
      ∀ m : Nat, 25 ≤ m * 10 → (coursePagination 25 10 2).totalPages ≤ m) ∧
    ((coursePagination 25 10 2).hasNext = true ↔
      (coursePagination 25 10 2).currentPage < (coursePagination 25 10 2).totalPages) ∧
    ((coursePagination 25 10 2).hasPrev = true ↔
      1 < (coursePagination 25 10 2).currentPage) ∧
    ((coursePagination 25 10 2).hasNext = true →
      (coursePagination 25 10 2).nextPage = some (2 + 1)) ∧
    ((coursePagination 25 10 2).hasNext = false →
      (coursePagination 25 10 2).nextPage = none) ∧
    ((coursePagination 25 10 2).hasPrev = true →
      (coursePagination 25 10 2).prevPage = some (2 - 1)) ∧
    ((coursePagination 25 10 2).hasPrev = false →
      (coursePagination 25 10 2).prevPage = none) ∧
    blogPagination 25 10 2 = coursePagination 25 10 2) :=
  ⟨by decide, claimC2 25 10 2 (by decide)⟩

/-- C3: whenever the active/published flag is absent from the raw query,
the built filter restricts to active records (`isActive = true`) in both
course listing paths, and the blog filter always restricts to published
records (`isPublished = true`) — the blog service exposes no override at
all. -/
theorem claimC3 :
    (∀ q : ListQuery, q.isActive = none → (buildListFilter q).isActive = true) ∧
    (∀ q : GetQuery, q.isActive = none → (buildGetFilter q).isActive = true) ∧
    (∀ q : BlogQuery, (buildBlogFilter q).isPublished = true) := by
  refine ⟨fun q hq => ?_, fun q hq => ?_, fun q => rfl⟩ <;>
    simp [buildListFilter, buildGetFilter, hq]

/-- C3 witness: the empty query on each endpoint. -/
theorem claimC3_witness :
    (buildListFilter {}).isActive = true ∧
    (buildGetFilter {}).isActive = true ∧
    (buildBlogFilter {}).isPublished = true :=
  ⟨claimC3.1 {} rfl, claimC3.2.1 {} rfl, claimC3.2.2 {}⟩

/-- C6: supplying the sentinel category `"All Courses"` builds exactly the
filter built with no category parameter, in both `listCourses` and
`getCourses`; the sentinel never becomes a literal category constraint. -/
theorem claimC6 :
    (∀ q : ListQuery,
      buildListFilter { q with category := some (.one "All Courses") } =
        buildListFilter { q with category := none }) ∧
    (∀ q : GetQuery,
      buildGetFilter { q with category := some "All Courses" } =
        buildGetFilter { q with category := none }) := by
  constructor <;> intro q <;>
    simp +decide [buildListFilter, buildGetFilter, listCategoryField]

/-- C6 witness: the sentinel on the otherwise-empty query. -/
theorem claimC6_witness :
    buildListFilter { category := some (.one "All Courses") } =
      buildListFilter ({} : ListQuery) ∧
    buildGetFilter { category := some "All Courses" } =
      buildGetFilter ({} : GetQuery) :=
  ⟨claimC6.1 {}, claimC6.2 {}⟩

/-- C1 counterexample: the blog limit is capped at 50, not 100. For raw
`limit = "200"` the claimed formula `max(1, min(100, parseIntOr(limit, 10)))`
resolves to 100, but `blogQuerySchema` resolves 50. -/
theorem claimC1_counterexample :
    blogLimitResolved (some "200") = some 50 ∧
    specPageSize (some "200") 10 = 100 ∧
    ¬ ((50 : Int) = 100) := by decide

/-- C1 amended: in the course listing path the claim holds with `parseIntOr`
read as JavaScript `parseInt(x) || default` (both an unparseable string and
a parse result of 0 fall back to the default), and the resolved values
satisfy `page ≥ 1` and `1 ≤ limit ≤ 100`. In the blog path the resolution
is `page = max(1, parseInt(limit or "1"))` and
`limit = min(max(1, parseInt(limit or "10")), 50)` — capped at 50, not
100 — where a missing or empty input takes the default but a present
non-numeric input propagates `NaN` instead of falling back. -/
theorem claimC1_amended :
    (∀ l : Option String, 1 ≤ listLimitNum l ∧ listLimitNum l ≤ 100) ∧
    (∀ p : Option String, 1 ≤ listPageNum p) ∧
    listPageNum none = 1 ∧ listLimitNum none = 12 ∧
    (∀ s, parseIntJS s = none → listPageNum (some s) = 1 ∧ listLimitNum (some s) = 12) ∧
    (∀ s n, parseIntJS s = some n → n ≠ 0 →
      listPageNum (some s) = max 1 n ∧ listLimitNum (some s) = max 1 (min 100 n)) ∧
    blogPageResolved none = some 1 ∧ blogLimitResolved none = some 10 ∧
    (∀ s n, s ≠ "" → parseIntJS s = some n →
      blogPageResolved (some s) = some (max 1 n) ∧
      blogLimitResolved (some s) = some (min (max 1 n) 50)) ∧
    (∀ s, s ≠ "" → parseIntJS s = none →
      blogPageResolved (some s) = none ∧ blogLimitResolved (some s) = none) := by
  refine ⟨?_, ?_, by decide, by decide, ?_, ?_, by decide, by decide, ?_, ?_⟩
  · intro l
    unfold listLimitNum
    exact ⟨le_max_left _ _, max_le (by norm_num) (min_le_left _ _)⟩
  · intro p
    unfold listPageNum
    exact le_max_left _ _
  · intro s hs
    constructor <;> simp [listPageNum, listLimitNum, jsOr, hs]
  · intro s n hs hn
    constructor <;> simp [listPageNum, listLimitNum, jsOr, hs, hn]
  · intro s n hs hn
    constructor <;>
      simp [blogPageResolved, blogLimitResolved, jsMaxNaN, jsMinNaN, jsOrStr, hs, hn]
  · intro s hs hn
    constructor <;>
      simp [blogPageResolved, blogLimitResolved, jsMaxNaN, jsMinNaN, jsOrStr, hs, hn]

/-- C1 witness: concrete resolutions on each path. -/
theorem claimC1_witness :
    (1 ≤ listLimitNum (some "200") ∧ listLimitNum (some "200") ≤ 100) ∧
    (listPageNum (some "abc") = 1 ∧ listLimitNum (some "abc") = 12) ∧
    (blogPageResolved (some "7") = some (max 1 7) ∧
      blogLimitResolved (some "7") = some (min (max 1 7) 50)) :=
  ⟨claimC1_amended.1 (some "200"),
   claimC1_amended.2.2.2.2.1 "abc" (by decide),
   claimC1_amended.2.2.2.2.2.2.2.2.1 "7" 7 (by decide) (by decide)⟩

/-- C4: when the raw query supplies both a non-empty free-text search and
`hasDiscount = "false"`, the filter's `$or` is exactly the discount-absence
disjunction: the search OR-group is overwritten by the later assignment and
no search clause survives in the final filter. -/
theorem claimC4 (q : ListQuery) (s : String) (_hs : q.search = some s) (_hne : s ≠ "")
    (hd : q.hasDiscount = some "false") :
    (buildListFilter q).orClauses = some dpAbsenceClauses ∧
    ∀ cl ∈ dpAbsenceClauses,
      cl = OrClause.dpExistsFalse ∨ cl = OrClause.dpEqNull ∨ cl = OrClause.dpEqZero := by
  constructor
  · simp [buildListFilter, listOrField, hd]
  · decide

/-- C4 witness: searching "web" with `hasDiscount=false`. -/
theorem claimC4_witness :
    (buildListFilter { search := some "web", hasDiscount := some "false" }).orClauses =
      some dpAbsenceClauses ∧
    ∀ cl ∈ dpAbsenceClauses,
      cl = OrClause.dpExistsFalse ∨ cl = OrClause.dpEqNull ∨ cl = OrClause.dpEqZero :=
  claimC4 { search := some "web", hasDiscount := some "false" } "web" rfl (by decide) rfl

/-- C5: the discount-presence filter is tri-state, in both `listCourses`
and `getCourses`. Semantically, the `{$exists: true, $ne: null, $gt: 0}`
constraint matches a document exactly when its discounted price is a
present, non-null, strictly positive value (so absent, null and zero are
excluded), and the three-clause `$or` disjunction matches exactly the
documents whose discounted price is absent, null or zero. Syntactically,
`hasDiscount = "true"` installs the former on `discountedPrice`,
`hasDiscount = "false"` installs the latter as `$or`, and an unset
`hasDiscount` leaves no discount-presence constraint anywhere in the
filter. -/
theorem claimC5 :
    (∀ d : CourseDoc,
      (matchesExistsNeGt d.discountedPrice ⟨true, true, 0⟩ = true ↔
        ∃ v, d.discountedPrice = some (some v) ∧ 0 < v) ∧
      (matchesOrList d dpAbsenceClauses = true ↔
        (d.discountedPrice = none ∨ d.discountedPrice = some none ∨
          d.discountedPrice = some (some 0)))) ∧
    (∀ q : ListQuery, q.hasDiscount = some "true" →
      (buildListFilter q).discountedPrice = some ⟨true, true, 0⟩) ∧
    (∀ q : ListQuery, q.hasDiscount = some "false" →
      (buildListFilter q).orClauses = some dpAbsenceClauses ∧
      (buildListFilter q).discountedPrice = none) ∧
    (∀ q : ListQuery, q.hasDiscount = none →
      (buildListFilter q).discountedPrice = none ∧
      (∀ c, (buildListFilter q).discountPercentage = some c → c ≠ PctConstraint.gtZero) ∧
      (∀ l, (buildListFilter q).orClauses = some l → ∀ cl ∈ l,
        cl ≠ OrClause.dpExistsFalse ∧ cl ≠ OrClause.dpEqNull ∧ cl ≠ OrClause.dpEqZero)) ∧
    (∀ q : GetQuery, q.hasDiscount = some "true" →
      (buildGetFilter q).discountedPrice = some ⟨true, true, 0⟩) ∧
    (∀ q : GetQuery, q.hasDiscount = some "false" →
      (buildGetFilter q).orClauses = some dpAbsenceClauses ∧
      (buildGetFilter q).discountedPrice = none) ∧
    (∀ q : GetQuery, q.hasDiscount = none →
      (buildGetFilter q).discountedPrice = none ∧
      (∀ l, (buildGetFilter q).orClauses = some l → ∀ cl ∈ l,
        cl ≠ OrClause.dpExistsFalse ∧ cl ≠ OrClause.dpEqNull ∧ cl ≠ OrClause.dpEqZero)) := by
  refine ⟨?_, ?_, ?_, ?_, ?_, ?_, ?_⟩
  · intro d
    constructor
    · rcases hdp : d.discountedPrice with _ | dpv
      · simp [matchesExistsNeGt, hdp]
      · rcases dpv with _ | v
        · simp [matchesExistsNeGt, hdp]
        · simp [matchesExistsNeGt, hdp]
    · rcases hdp : d.discountedPrice with _ | dpv
      · simp [matchesOrList, matchesOrClause, dpAbsenceClauses, hdp]
      · rcases dpv with _ | v
        · simp [matchesOrList, matchesOrClause, dpAbsenceClauses, hdp]
        · simp [matchesOrList, matchesOrClause, dpAbsenceClauses, hdp]
  · intro q hd
    simp [buildListFilter, listDiscountedPriceField, hd]
  · intro q hd
    constructor
    · simp [buildListFilter, listOrField, hd]
    · simp [buildListFilter, listDiscountedPriceField, hd]
  · intro q hd
    refine ⟨?_, ?_, ?_⟩
    · simp [buildListFilter, listDiscountedPriceField, hd]
    · intro c hc
      rcases ha : q.minDiscountPercentage with _ | a <;>
        rcases hb : q.maxDiscountPercentage with _ | b <;>
          simp [buildListFilter, listPctField, hd, ha, hb] at hc <;>
            simp [← hc]
    · intro l hl cl hcl
      rcases hs : q.search with _ | s
      · simp [buildListFilter, listOrField, hd, hs] at hl
      · by_cases hne : s = ""
        · simp [buildListFilter, listOrField, hd, hs, hne] at hl
        · simp [buildListFilter, listOrField, hd, hs, hne] at hl
          subst hl
          simp [listSearchClauses] at hcl
          rcases hcl with h | h | h | h | h <;> subst h <;> simp
  · intro q hd
    simp [buildGetFilter, getDiscountedPriceField, hd]
  · intro q hd
    constructor
    · simp [buildGetFilter, getOrField, hd]
    · simp [buildGetFilter, getDiscountedPriceField, hd]
  · intro q hd
    refine ⟨?_, ?_⟩
    · simp [buildGetFilter, getDiscountedPriceField, hd]
    · intro l hl cl hcl
      rcases hs : q.search with _ | s
      · simp [buildGetFilter, getOrField, hd, hs] at hl
      · by_cases hne : s = ""
        · simp [buildGetFilter, getOrField, hd, hs, hne] at hl
        · simp [buildGetFilter, getOrField, hd, hs, hne] at hl
          subst hl
          simp [getSearchClauses] at hcl
          rcases hcl with h | h | h | h <;> subst h <;> simp

/-- C5 witness: the three states on concrete queries and a discounted
document. -/
theorem claimC5_witness :
    (matchesExistsNeGt (CourseDoc.mk "" "" "" "" [] 0 (some (some 5)) 0).discountedPrice
        ⟨true, true, 0⟩ = true ↔
      ∃ v, (CourseDoc.mk "" "" "" "" [] 0 (some (some 5)) 0).discountedPrice =
        some (some v) ∧ 0 < v) ∧
    (buildListFilter { hasDiscount := some "true" }).discountedPrice = some ⟨true, true, 0⟩ ∧
    (buildListFilter { hasDiscount := some "false" }).orClauses = some dpAbsenceClauses ∧
    (buildGetFilter { hasDiscount := some "true" }).discountedPrice = some ⟨true, true, 0⟩ :=
  ⟨(claimC5.1 (CourseDoc.mk "" "" "" "" [] 0 (some (some 5)) 0)).1,
   claimC5.2.1 { hasDiscount := some "true" } rfl,
   (claimC5.2.2.1 { hasDiscount := some "false" } rfl).1,
   claimC5.2.2.2.2.1 { hasDiscount := some "true" } rfl⟩

/-- C9: supplied price bounds are emitted verbatim as
`{$gte: parsed min, $lte: parsed max}` on the price field in both listing
paths (with no recognized preset token overriding it in `listCourses`);
in particular for the inverted pair `minPrice = "50"`, `maxPrice = "20"`
the constraint is `{$gte: 50, $lte: 20}` unchanged, and no value satisfies
it, so the range matches zero records. -/
theorem claimC9 :
    (∀ (q : ListQuery) (s1 s2 : String), q.minPrice = some s1 → q.maxPrice = some s2 →
      q.priceRange = none →
      (buildListFilter q).originalPrice =
        some { gte := some (parseFloatJS s1), lte := some (parseFloatJS s2) }) ∧
    (∀ (q : GetQuery) (s1 s2 : String), q.minPrice = some s1 → q.maxPrice = some s2 →
      (buildGetFilter q).originalPrice =
        some { gte := some (parseFloatJS s1), lte := some (parseFloatJS s2) }) ∧
    parseFloatJS "50" = some 50 ∧ parseFloatJS "20" = some 20 ∧
    (∀ v : ℚ, matchesNumRange v { gte := some (some 50), lte := some (some 20) } = false) := by
  refine ⟨?_, ?_, ?_, ?_, ?_⟩
  · intro q s1 s2 h1 h2 h3
    simp only [buildListFilter, listOriginalPriceField, h1, h2, h3]
    rfl
  · intro q s1 s2 h1 h2
    simp only [buildGetFilter, h1, h2]
    rfl
  · simp +decide [parseFloatJS, skipWS, takeDigits, parseSign, digitsToNat]
  · simp +decide [parseFloatJS, skipWS, takeDigits, parseSign, digitsToNat]
  · intro v
    simp [matchesNumRange]
    intro h1
    linarith

/-- C9 witness: the inverted bounds `"50"` / `"20"` on both builders. -/
theorem claimC9_witness :
    (buildListFilter { minPrice := some "50", maxPrice := some "20" }).originalPrice =
      some { gte := some (parseFloatJS "50"), lte := some (parseFloatJS "20") } ∧
    (buildGetFilter { minPrice := some "50", maxPrice := some "20" }).originalPrice =
      some { gte := some (parseFloatJS "50"), lte := some (parseFloatJS "20") } ∧
    matchesNumRange 30 { gte := some (some 50), lte := some (some 20) } = false :=
  ⟨claimC9.1 { minPrice := some "50", maxPrice := some "20" } "50" "20" rfl rfl rfl,
   claimC9.2.1 { minPrice := some "50", maxPrice := some "20" } "50" "20" rfl rfl,
   claimC9.2.2.2.2 30⟩

/-- C8 counterexample: in `getCourses`, requesting
`sortBy = "createdAt", sortOrder = "asc"` does NOT preserve the requested
ascending direction — line 118 unconditionally assigns `createdAt: -1`, so
the resolved sort is `{createdAt: -1}`, not `{createdAt: 1}`. -/
theorem claimC8_counterexample :
    buildGetSort "createdAt" "asc" = [("createdAt", -1)] ∧
    ¬ buildGetSort "createdAt" "asc" = [("createdAt", 1)] := by decide

/-- C8 amended: in `listCourses` the claim holds — `"duration"`/`"asc"`
resolves to `{totalHours: 1, createdAt: -1}`, a primary `createdAt` sort
keeps the caller's direction, and any other primary key gets
`createdAt: -1` appended last. In `getCourses`, however, `createdAt: -1`
is assigned unconditionally after the switch, overriding a requested
ascending `createdAt` direction. -/
theorem claimC8_amended :
    buildListSort "duration" "asc" = [("totalHours", 1), ("createdAt", -1)] ∧
    (∀ ord, buildListSort "createdAt" ord = [("createdAt", sortDir ord)]) ∧
    (∀ sb ord, sb ≠ "createdAt" → sb ≠ "trending" →
      (buildListSort sb ord).getLast? = some ("createdAt", -1)) ∧
    (∀ sb ord, jsLookup (buildGetSort sb ord) "createdAt" = some (-1)) := by
  refine ⟨by decide, ?_, ?_, ?_⟩
  · intro ord
    by_cases h : ord = "desc" <;>
      simp [buildListSort, jsAssign, jsLookup, sortDir, h]
  · intro sb ord h1 h2
    by_cases ho : ord = "desc" <;>
    · by_cases hp1 : sb = "price"
      · subst hp1; simp [buildListSort, jsAssign, jsLookup, sortDir, ho]
      · by_cases hp2 : sb = "discountedPrice"
        · subst hp2; simp [buildListSort, jsAssign, jsLookup, sortDir, ho]
        · by_cases hp3 : sb = "rating"
          · subst hp3; simp [buildListSort, jsAssign, jsLookup, sortDir, ho]
          · by_cases hp4 : sb = "students"
            · subst hp4; simp [buildListSort, jsAssign, jsLookup, sortDir, ho]
            · by_cases hp5 : sb = "duration"
              · subst hp5; simp [buildListSort, jsAssign, jsLookup, sortDir, ho]
              · by_cases hp6 : sb = "discount"
                · subst hp6; simp [buildListSort, jsAssign, jsLookup, sortDir, ho]
                · by_cases hp7 : sb = "popularity"
                  · subst hp7; simp [buildListSort, jsAssign, jsLookup, sortDir, ho]
                  · simp [buildListSort, jsAssign, jsLookup, sortDir, ho,
                      hp1, hp2, hp3, hp4, hp5, hp6, hp7, h1, h2]
  · intro sb ord
    by_cases hp1 : sb = "discountedPrice"
    · subst hp1; by_cases ho : ord = "desc" <;>
        simp [buildGetSort, jsAssign, jsLookup, sortDir, ho]
    · by_cases hp2 : sb = "duration"
      · subst hp2; by_cases ho : ord = "desc" <;>
          simp [buildGetSort, jsAssign, jsLookup, sortDir, ho]
      · by_cases hc : sb = "createdAt"
        · subst hc; by_cases ho : ord = "desc" <;>
            simp [buildGetSort, jsAssign, jsLookup, sortDir, ho]
        · by_cases ho : ord = "desc" <;>
            simp [buildGetSort, jsAssign, jsLookup, sortDir, ho, hp1, hp2, hc]

/-- C8 witness: the secondary sort on a plain field key. -/
theorem claimC8_witness :
    (buildListSort "title" "asc").getLast? = some ("createdAt", -1) ∧
    jsLookup (buildGetSort "title" "asc") "createdAt" = some (-1) :=
  ⟨claimC8_amended.2.2.1 "title" "asc" (by decide) (by decide),
   claimC8_amended.2.2.2 "title" "asc"⟩

/-- C7 counterexample: on a SUCCESSFUL update that changes `originalPrice`,
a client-supplied `discountPercentage` IS trusted. For a stored course with
prices 100/90 and the body
`{originalPrice: "100", discountPercentage: "50"}` (no `discountedPrice`
key, so neither the controller guard nor the update validator fires, and
every number casts), `findByIdAndUpdate` succeeds and stores
`discountPercentage = 50` verbatim, while the recomputation formula on the
resulting prices gives `round(((100 - 90) / 100) * 100) = 10`. -/
theorem claimC7_counterexample :
    updateCourseStore
        { originalPrice := some 100, discountedPrice := some (some (some 90)),
          discountPercentage := some 10 }
        { originalPrice := some "100", discountPercentage := some "50" } =
      some { originalPrice := some 100, discountedPrice := some (some (some 90)),
             discountPercentage := some 50 } ∧
    recomputePct 100 90 = 10 ∧
    ¬ ((50 : ℚ) = 10) := by
  refine ⟨?_, ?_, by norm_num⟩
  · simp +decide [updateCourseStore, updateGuardThrows, applyCourseUpdate, castOk,
      castOkQ, castOkI, castOkDP, updateValidatorsOk, applySet, buildCourseUpdateData,
      parseFloatJS, skipWS, takeDigits, parseSign, digitsToNat]
  · unfold recomputePct jsRound
    norm_num

/-- C7 amended: the recomputation happens only on the save path — the
pre-save hook overwrites `discountPercentage` with
`round(((originalPrice - discountedPrice) / originalPrice) * 100)` whenever
both prices are set and positive, regardless of any client-supplied
value — while `updateCourse` places a client-supplied `discountPercentage`
verbatim in the update document and, whenever `findByIdAndUpdate` succeeds,
that client value is stored with no recomputation (update queries bypass
save middleware). Updates carrying a truthy `discountedPrice` are rejected
by the update validator (whose `this` is not the document), and updates
whose body omits `originalPrice` throw a `CastError` on `NaN`; in both
cases nothing is stored. -/
theorem claimC7_amended :
    (∀ (r : CourseRecord) (dp op : ℚ), r.discountedPrice = some (some (some dp)) →
      r.originalPrice = some op → dp ≠ 0 → 0 < op →
      (preSaveHook r).discountPercentage = some ((recomputePct op dp : ℤ) : ℚ)) ∧
    (∀ (b : UpdateBody) (tags : List String) (s : String), b.discountPercentage = some s →
      (buildCourseUpdateData b tags).discountPercentage = some (parseFloatJS s)) ∧
    (∀ (r r2 : CourseRecord) (b : UpdateBody) (s : String),
      b.discountPercentage = some s → updateCourseStore r b = some r2 →
      r2.discountPercentage = parseFloatJS s) ∧
    (∀ (r : CourseRecord) (b : UpdateBody) (v : ℚ),
      (buildCourseUpdateData b r.tags).discountedPrice = some (UpdVal.num (some v)) →
      v ≠ 0 → updateCourseStore r b = none) ∧
    (∀ (r : CourseRecord) (b : UpdateBody),
      b.originalPrice = none → updateCourseStore r b = none) := by
  refine ⟨?_, ?_, ?_, ?_, ?_⟩
  · intro r dp op h1 h2 h3 h4
    simp [preSaveHook, h1, h2, h3, h4, h4.ne']
  · intro b tags s h
    simp [buildCourseUpdateData, h]
  · intro r r2 b s h hst
    unfold updateCourseStore applyCourseUpdate at hst
    split_ifs at hst with h1 h2
    · simp only [Option.some.injEq] at hst
      subst hst
      simp [applySet, buildCourseUpdateData, h]
  · intro r b v hdp hv
    have hval : updateValidatorsOk (buildCourseUpdateData b r.tags) = false := by
      unfold updateValidatorsOk
      simp [hdp, hv]
    unfold updateCourseStore
    split
    · rfl
    · simp [applyCourseUpdate, hval]
  · intro r b hb
    have hcast : castOk (buildCourseUpdateData b r.tags) = false := by
      unfold castOk
      simp [buildCourseUpdateData, hb]
    unfold updateCourseStore
    split
    · rfl
    · simp [applyCourseUpdate, hcast]

/-- C7 witness: the hook recomputes 10% for prices 100/90; a successful
update stores the client's "50" verbatim; an update carrying
`discountedPrice = "90"` is rejected; an update whose body omits
`originalPrice` is rejected. -/
theorem claimC7_witness :
    (preSaveHook
        { originalPrice := some 100,
          discountedPrice := some (some (some 90)) }).discountPercentage =
      some ((recomputePct 100 90 : ℤ) : ℚ) ∧
    (buildCourseUpdateData { discountPercentage := some "50" } []).discountPercentage =
      some (parseFloatJS "50") ∧
    ({ originalPrice := some 100, discountedPrice := some (some (some 90)),
       discountPercentage := some 50 } : CourseRecord).discountPercentage =
      parseFloatJS "50" ∧
    updateCourseStore {}
      { originalPrice := some "100", discountedPrice := some "90" } = none ∧
    updateCourseStore {} { discountPercentage := some "50" } = none := by
  have hstore : updateCourseStore
      { originalPrice := some 100, discountedPrice := some (some (some 90)),
        discountPercentage := some 10 }
      { originalPrice := some "100", discountPercentage := some "50" } =
      some { originalPrice := some 100, discountedPrice := some (some (some 90)),
             discountPercentage := some 50 } := by
    simp +decide [updateCourseStore, updateGuardThrows, applyCourseUpdate, castOk,
      castOkQ, castOkI, castOkDP, updateValidatorsOk, applySet, buildCourseUpdateData,
      parseFloatJS, skipWS, takeDigits, parseSign, digitsToNat]
  have hdp90 : (buildCourseUpdateData
      { originalPrice := some "100", discountedPrice := some "90" }
      ({} : CourseRecord).tags).discountedPrice = some (UpdVal.num (some 90)) := by
    simp +decide [buildCourseUpdateData, parseFloatJS, skipWS, takeDigits, parseSign,
      digitsToNat]
  exact ⟨claimC7_amended.1
           { originalPrice := some 100, discountedPrice := some (some (some 90)) }
           90 100 rfl rfl (by norm_num) (by norm_num),
         claimC7_amended.2.1 { discountPercentage := some "50" } [] "50" rfl,
         claimC7_amended.2.2.1
           { originalPrice := some 100, discountedPrice := some (some (some 90)),
             discountPercentage := some 10 }
           { originalPrice := some 100, discountedPrice := some (some (some 90)),
             discountPercentage := some 50 }
           { originalPrice := some "100", discountPercentage := some "50" }
           "50" rfl hstore,
         claimC7_amended.2.2.2.1 {}
           { originalPrice := some "100", discountedPrice := some "90" }
           90 hdp90 (by norm_num),
         claimC7_amended.2.2.2.2 {} { discountPercentage := some "50" } rfl⟩

/-- C10 counterexample: the claim's universal "for every update request
whose body omits isActive, updateCourse writes isActive = true" fails. The
empty body puts `originalPrice = parseFloat(undefined) = NaN` into the
always-assigned part of `updateData`; the Mongoose number cast throws a
`CastError`, `findByIdAndUpdate` stores nothing, and a soft-deleted course
stays deactivated. -/
theorem claimC10_counterexample :
    ({} : UpdateBody).isActive = none ∧
    (buildCourseUpdateData {} (applySoftDelete {}).tags).originalPrice = none ∧
    updateCourseStore (applySoftDelete {}) {} = none ∧
    (applySoftDelete {}).isActive = false := by
  refine ⟨rfl, rfl, ?_, rfl⟩
  simp [updateCourseStore, updateGuardThrows, applyCourseUpdate, castOk,
    buildCourseUpdateData]

/-- C10 amended: the partial update is not field-preserving for the boolean
flags on any update that succeeds — whenever `updateCourse` stores a
record, a body that omitted `isActive` has written `isActive = true`
(reactivating a soft-deleted course) and a body that omitted `isFeatured`
has written `isFeatured = false` (clearing a featured course). An update
whose body lacks a parseable `originalPrice` (such as the empty body)
throws a `CastError` instead and stores nothing. -/
theorem claimC10_amended (b : UpdateBody) (r r2 : CourseRecord)
    (h : updateCourseStore r b = some r2) :
    (b.isActive = none → r2.isActive = true) ∧
    (b.isFeatured = none → r2.isFeatured = false) := by
  unfold updateCourseStore applyCourseUpdate at h
  split_ifs at h with h1 h2
  · simp only [Option.some.injEq] at h
    subst h
    constructor <;> intro hb <;> simp [applySet, buildCourseUpdateData, hb]

/-- C10 witness: updating a soft-deleted course with a body carrying only a
parseable `originalPrice` succeeds and reactivates it, and clears the
featured flag. -/
theorem claimC10_witness :
    ({ originalPrice := some "100" } : UpdateBody).isActive = none ∧
    ({ originalPrice := some "100" } : UpdateBody).isFeatured = none ∧
    (applySoftDelete { isFeatured := true }).isActive = false ∧
    updateCourseStore (applySoftDelete { isFeatured := true })
      { originalPrice := some "100" } = some { originalPrice := some 100 } ∧
    ({ originalPrice := some 100 } : CourseRecord).isActive = true ∧
    ({ originalPrice := some 100 } : CourseRecord).isFeatured = false := by
  have hstore : updateCourseStore (applySoftDelete { isFeatured := true })
      { originalPrice := some "100" } = some { originalPrice := some 100 } := by
    simp +decide [updateCourseStore, updateGuardThrows, applyCourseUpdate, castOk,
      castOkQ, castOkI, castOkDP, updateValidatorsOk, applySet, applySoftDelete,
      buildCourseUpdateData, parseFloatJS, skipWS, takeDigits, parseSign, digitsToNat]
  exact ⟨rfl, rfl, rfl, hstore,
         (claimC10_amended { originalPrice := some "100" }
           (applySoftDelete { isFeatured := true }) { originalPrice := some 100 }
           hstore).1 rfl,
         (claimC10_amended { originalPrice := some "100" }
           (applySoftDelete { isFeatured := true }) { originalPrice := some 100 }
           hstore).2 rfl⟩

end Mentorly
